import Mathlib

/-!
Verification of the study-plan generation pipeline of the PreMed-Pal
repository (server file-upload module).  The fallback plan composer, the
keyword extractor, the topic synthesizer, the quiz generator and the
remote-response normalization are shallowly embedded as total Lean
functions, translated from the TypeScript source of the file-upload route
(the variant that calls the Hugging Face endpoint and builds quizzes and
video recommendations).  Strings are modelled as Lean `String`
(sequences of unicode scalar values); character classification
(`\w`, `\s`, digits) follows the JavaScript regular-expression classes,
and case mapping is modelled on the ASCII range.
-/

/-- Characters matched by the JavaScript `\s` regular-expression class. -/
def isJsSpace (c : Char) : Bool :=
  c = ' ' || c = '\t' || c = '\n' || c = '\x0b' || c = '\x0c' || c = '\r' ||
  c.toNat = 0xa0 || c.toNat = 0x1680 ||
  (0x2000 <= c.toNat && c.toNat <= 0x200a) ||
  c.toNat = 0x2028 || c.toNat = 0x2029 || c.toNat = 0x202f ||
  c.toNat = 0x205f || c.toNat = 0x3000 || c.toNat = 0xfeff

/-- Characters matched by the JavaScript `\w` regular-expression class. -/
def isWordChar (c : Char) : Bool :=
  c.isAlphanum || c = '_'

/-- Model of `String.prototype.toLowerCase`, on the ASCII range. -/
def jsToLower (s : String) : String :=
  String.mk (s.data.map Char.toLower)

/-- Model of `str.charAt(0).toUpperCase() + str.slice(1)` (the source's
`capitalize` helper); on the empty string it returns the empty string. -/
def capitalize (s : String) : String :=
  match s.data with
  | [] => ""
  | c :: cs => String.mk (Char.toUpper c :: cs)

/-- Model of `.replace(/[^\w\s]/g, '')`: keep exactly the word and
whitespace characters. -/
def stripNonWordSpace (s : String) : String :=
  String.mk (s.data.filter (fun c => isWordChar c || isJsSpace c))

/-- Worker for `splitWs`.  `acc` holds the characters of the current chunk
in reverse; `inSep` records whether the previous character belonged to a
whitespace run (so that a run of whitespace produces a single split). -/
def splitWsGo : List Char → List Char → Bool → List String
  | [], acc, _ => [String.mk acc.reverse]
  | c :: cs, acc, inSep =>
    if isJsSpace c then
      if inSep then splitWsGo cs [] true
      else String.mk acc.reverse :: splitWsGo cs [] true
    else splitWsGo cs (c :: acc) false

/-- Model of `String.prototype.split(/\s+/)`: split on maximal whitespace
runs; a leading (or trailing) run contributes a leading (or trailing)
empty chunk, and the empty string splits into `[""]`. -/
def splitWs (s : String) : List String :=
  splitWsGo s.data [] false

/-- The token list the keyword extractor filters: lowercase, strip
non-word/non-space characters, split on whitespace, keep tokens of length
greater than 4. -/
def keywordTokens (text : String) : List String :=
  (splitWs (stripNonWordSpace (jsToLower text))).filter (fun w => 4 < w.length)

/-- Worker for `dedupFirst`: `seen` is the set of elements already kept,
in the manner of insertion into a JavaScript `Set`. -/
def dedupFirstAux : List String → List String → List String
  | _, [] => []
  | seen, w :: ws =>
    if w ∈ seen then dedupFirstAux seen ws
    else w :: dedupFirstAux (w :: seen) ws

/-- Model of `Array.from(new Set(words))`: deduplicate keeping the first
occurrence of each element, preserving order. -/
def dedupFirst (l : List String) : List String :=
  dedupFirstAux [] l

/-- The source's `extractKeywords`: tokenize, deduplicate, truncate to the
first 10 keywords. -/
def extractKeywords (text : String) : List String :=
  (dedupFirst (keywordTokens text)).take 10

/-- Case-insensitive match of a lowercase pattern at the head of the
input; returns the remaining characters on success. -/
def matchCI : List Char → List Char → Option (List Char)
  | [], l => some l
  | _ :: _, [] => none
  | p :: ps, c :: cs => if Char.toLower c = p then matchCI ps cs else none

/-- Try to match `<pat>\s+\d+` (case-insensitively) at the head of `l`;
on success return the matched substring and the number of characters
consumed (the whitespace and digit runs are taken greedily, as the regex
quantifiers do). -/
def tryRefMatch (pat : List Char) (l : List Char) : Option (String × Nat) :=
  match matchCI pat l with
  | none => none
  | some rest =>
    let sps := rest.takeWhile isJsSpace
    if sps.isEmpty then none
    else
      let rest2 := rest.drop sps.length
      let ds := rest2.takeWhile Char.isDigit
      if ds.isEmpty then none
      else
        let consumed := pat.length + sps.length + ds.length
        some (String.mk (l.take consumed), consumed)

/-- Scanner for a global regex `/<pat>\s+\d+/gi`: try the pattern at each
position, emit non-overlapping matches left to right, resuming after each
match.  `fuel` bounds the recursion; each step consumes at least one
character, so `length + 1` fuel is exact. -/
def scanMatches (pat : List Char) : Nat → List Char → List String
  | 0, _ => []
  | _ + 1, [] => []
  | fuel + 1, c :: cs =>
    match tryRefMatch pat (c :: cs) with
    | some (m, consumed) => m :: scanMatches pat fuel ((c :: cs).drop consumed)
    | none => scanMatches pat fuel cs

/-- Model of `text.match(/<pat>\s+(\d+)/gi) || []`: the list of matched
substrings. -/
def jsMatchAll (pat : String) (s : String) : List String :=
  scanMatches pat.data (s.data.length + 1) s.data

/-- Model of `m.replace(/<pat>\s+/i, '')` applied to a string produced by
`jsMatchAll`: such a string starts with the pattern followed by
whitespace, so the replacement drops that head and keeps the digits. -/
def dropRefHead (patLen : Nat) (m : String) : String :=
  String.mk ((m.data.drop patLen).dropWhile isJsSpace)

/-- The `chapters` list of the fallback composer: every match of
`/chapter\s+(\d+)/gi` rewritten as `Chapter <digits>`. -/
def chaptersOf (text : String) : List String :=
  (jsMatchAll "chapter" text).map (fun m => "Chapter " ++ dropRefHead 7 m)

/-- The `pages` list of the fallback composer: every match of
`/page\s+(\d+)/gi` rewritten as `Page <digits>`. -/
def pagesOf (text : String) : List String :=
  (jsMatchAll "page" text).map (fun m => "Page " ++ dropRefHead 4 m)

/-- The source's `defaultReferences` list. -/
def defaultReferences : List String :=
  ["Review course materials", "Create concept map", "Practice sample questions"]

/-- The source's `studyReferences` pool: chapter references, page
references and up to three keyword-derived study pointers, deduplicated
via `new Set` (first occurrence kept). -/
def studyReferences (fileContent : String) : List String :=
  dedupFirst (chaptersOf fileContent ++ pagesOf fileContent ++
    ((extractKeywords fileContent).take 3).map (fun k => "Study " ++ capitalize k ++ " concept"))

/-- A topic stub produced by the topic synthesizer. -/
structure Topic where
  name : String
  description : String
  resources : List String
deriving DecidableEq

/-- The source's `generateTopicsFromKeywords`: four fixed generic topics
when no keyword is available, otherwise four topics built from the first
three keywords with generic phrasing for any missing index. -/
def generateTopicsFromKeywords (keywords : List String) : List Topic :=
  if keywords.length = 0 then
    [ { name := "Understanding Core Concepts",
        description := "Master the fundamental principles in your course material",
        resources := ["Review your course notes", "Create a concept map"] },
      { name := "Applying Theory to Practice",
        description := "Learn how to apply theoretical knowledge to practical scenarios",
        resources := ["Work through practice problems", "Find real-world examples"] },
      { name := "Advanced Topic Exploration",
        description := "Dive deeper into complex topics from your materials",
        resources := ["Research additional resources", "Form a study group"] },
      { name := "Review and Self-Assessment",
        description := "Test your understanding and identify areas for improvement",
        resources := ["Create practice tests", "Review difficult concepts"] } ]
  else
    [ { name := "Understanding " ++ capitalize (keywords.getD 0 "") ++ " Concepts",
        description := "Master the fundamental principles of " ++ keywords.getD 0 "" ++ " and related topics",
        resources := ["Study " ++ capitalize (keywords.getD 0 "") ++ " in detail",
          "Create flashcards for " ++ capitalize (keywords.getD 0 "") ++ " terminology"] },
      { name := if 1 < keywords.length then capitalize (keywords.getD 1 "") ++ " Applications"
          else "Practical Applications",
        description := if 1 < keywords.length then
            "Learn how " ++ keywords.getD 1 "" ++ " applies to real-world scenarios"
          else "Apply concepts to practical examples",
        resources := if 1 < keywords.length then
            ["Practice " ++ keywords.getD 1 "" ++ " problems",
             "Find examples of " ++ keywords.getD 1 "" ++ " in your field"]
          else ["Practice with examples", "Find real-world applications"] },
      { name := if 2 < keywords.length then "Advanced " ++ capitalize (keywords.getD 2 "")
          else "Advanced Topics",
        description := if 2 < keywords.length then
            "Explore complex aspects of " ++ keywords.getD 2 ""
          else "Dive deeper into advanced material",
        resources := if 2 < keywords.length then
            ["Research " ++ keywords.getD 2 "" ++ " further",
             "Join discussions about " ++ keywords.getD 2 ""]
          else ["Research advanced topics", "Join discussions with peers"] },
      { name := "Review and Assessment",
        description := "Test your understanding of " ++
          String.intercalate ", " ((keywords.take 3).map capitalize) ++ " and other key topics",
        resources := ["Create practice quizzes", "Summarize key points from your materials"] } ]

/-- The per-topic resource personalization of the fallback composer: with
a non-empty reference pool each placeholder resource at index `i` becomes
`studyReferences[i % length] || defaultReferences[i % 3]` (the `||`
falls through on a falsy, i.e. empty, string); with an empty pool the
resources become `defaultReferences`. -/
def assignResources (pool : List String) (t : Topic) : Topic :=
  if 0 < pool.length then
    { t with resources := (List.range t.resources.length).map (fun i =>
        let r := pool.getD (i % pool.length) ""
        if r = "" then defaultReferences.getD (i % defaultReferences.length) "" else r) }
  else
    { t with resources := defaultReferences }

/-- The topics of the fallback composer after resource personalization
(the `topics.forEach` loop of the source). -/
def topicsAssigned (fileContent : String) : List Topic :=
  (generateTopicsFromKeywords (extractKeywords fileContent)).map
    (assignResources (studyReferences fileContent))

/-- A YouTube video recommendation entry of the fallback plan. -/
structure VideoRef where
  title : String
  url : String
  description : String
deriving DecidableEq

/-- A quiz question of the fallback plan. -/
structure QuizQuestion where
  question : String
  options : List String
  correctAnswer : Nat
deriving DecidableEq

/-- The quiz block of a study plan. -/
structure QuizBlock where
  title : String
  description : String
  questions : List QuizQuestion
deriving DecidableEq

/-- A topic entry of a week of the serialized plan. -/
structure TopicPlan where
  name : String
  description : String
  estimatedHours : Nat
  resources : List String
  videoRecommendations : List VideoRef
deriving DecidableEq

/-- A week of the serialized plan. -/
structure WeekPlan where
  weekNumber : Nat
  topics : List TopicPlan
deriving DecidableEq

/-- The study-plan document assembled by the fallback composer. -/
structure StudyPlanDocument where
  title : String
  description : String
  weeks : List WeekPlan
  quiz : Option QuizBlock
deriving DecidableEq

/-- The source's `generateYouTubeRecommendations`: two search-query video
stubs, the second specialized to the first subtopic when one exists. -/
def generateYouTubeRecommendations (topic : String) (subtopics : List String) : List VideoRef :=
  [ { title := "Introduction to " ++ capitalize topic,
      url := "https://www.youtube.com/results?search_query=introduction+to+" ++ topic ++ "+tutorial",
      description := "A comprehensive introduction to " ++ topic ++ " fundamentals" },
    { title := if 0 < subtopics.length then capitalize (subtopics.getD 0 "") ++ " explained"
        else "Advanced " ++ capitalize topic,
      url := if 0 < subtopics.length then
          "https://www.youtube.com/results?search_query=" ++ subtopics.getD 0 "" ++ "+explained+" ++ topic
        else "https://www.youtube.com/results?search_query=advanced+" ++ topic ++ "+tutorial",
      description := if 0 < subtopics.length then
          "Detailed explanation of " ++ subtopics.getD 0 "" ++ " in " ++ topic
        else "Advanced concepts in " ++ topic } ]

/-- The source's `generateQuizQuestions`: a fixed purpose question
(answer 0), a relationship or key-principle question (answer 2), and an
application question (answer 1). -/
def generateQuizQuestions (topic : String) (relatedTerms : List String) : List QuizQuestion :=
  [ { question := "Which of the following best describes the main purpose of " ++ topic ++ "?",
      options := [
        "To analyze and understand " ++
          (if 0 < relatedTerms.length then relatedTerms.getD 0 "" else "core concepts"),
        "To apply " ++ topic ++ " in practical scenarios",
        "To develop new theories related to " ++ topic,
        "To compare " ++ topic ++ " with other similar topics" ],
      correctAnswer := 0 } ]
  ++ (if 1 < relatedTerms.length then
      [ { question := "How does " ++ relatedTerms.getD 0 "" ++ " relate to " ++
            relatedTerms.getD 1 "" ++ " in the context of " ++ topic ++ "?",
          options := [
            relatedTerms.getD 0 "" ++ " is a subset of " ++ relatedTerms.getD 1 "",
            relatedTerms.getD 0 "" ++ " and " ++ relatedTerms.getD 1 "" ++ " are completely unrelated",
            relatedTerms.getD 0 "" ++ " builds upon concepts from " ++ relatedTerms.getD 1 "",
            relatedTerms.getD 0 "" ++ " contradicts " ++ relatedTerms.getD 1 "" ],
          correctAnswer := 2 } ]
    else
      [ { question := "Which of the following is NOT a key principle of " ++ topic ++ "?",
          options := [
            "Understanding theoretical foundations",
            "Applying practical techniques",
            "Ignoring related fields of study",
            "Analyzing real-world examples" ],
          correctAnswer := 2 } ])
  ++ [ { question := "How would you apply " ++ topic ++ " knowledge to solve a real-world problem?",
         options := [
           "By focusing only on theoretical aspects",
           "By using established frameworks and methodologies",
           "By ignoring previous research on the topic",
           "By avoiding collaboration with experts in the field" ],
         correctAnswer := 1 } ]

/-- Model of a JavaScript `array[i] || alt` where the array holds
non-empty strings: the alternative is used when the index is out of range
(or the entry is the empty string, which is falsy). -/
def kwOr (keywords : List String) (i : Nat) (alt : String) : String :=
  let k := keywords.getD i ""
  if k = "" then alt else k

/-- Model of `topic.name.split(' ')[0].toLowerCase()`. -/
def headTokLower (name : String) : String :=
  jsToLower (String.mk (name.data.takeWhile (fun c => c ≠ ' ')))

/-- Model of `array.map((x, index) => f index x)` starting at index `i`. -/
def mapWithIndexFrom (f : Nat → α → β) (i : Nat) : List α → List β
  | [] => []
  | a :: as => f i a :: mapWithIndexFrom f (i + 1) as

/-- Model of `array.map((x, index) => f index x)`. -/
def mapWithIndex (f : Nat → α → β) (l : List α) : List β :=
  mapWithIndexFrom f 0 l

/-- The fallback plan composer (lines of `generateStudyPlan` after the
remote call fails): personalized topics split into two weeks, video
recommendations per topic, and a six-question quiz. -/
def composeFallbackPlan (fileContent : String) : StudyPlanDocument :=
  let keywords := extractKeywords fileContent
  let topics := topicsAssigned fileContent
  { title := "Personalized Study Plan",
    description := "This study plan is tailored based on your uploaded course materials.",
    weeks := [
      { weekNumber := 1,
        topics := mapWithIndex (fun index topic =>
          { name := topic.name,
            description := topic.description,
            estimatedHours := 3 + index,
            resources := topic.resources,
            videoRecommendations := generateYouTubeRecommendations
              (kwOr keywords index (headTokLower topic.name))
              ((keywords.drop 2).take 2) }) (topics.take 2) },
      { weekNumber := 2,
        topics := mapWithIndex (fun index topic =>
          { name := topic.name,
            description := topic.description,
            estimatedHours := 4 + index,
            resources := topic.resources,
            videoRecommendations := generateYouTubeRecommendations
              (kwOr keywords (index + 2) (headTokLower topic.name))
              (keywords.take 2) }) ((topics.drop 2).take 2) } ],
    quiz := some {
      title := "Knowledge Check Quiz",
      description := "Test your understanding of the key concepts from your course materials.",
      questions :=
        generateQuizQuestions (kwOr keywords 0 "course concepts") ((keywords.drop 1).take 2)
        ++ generateQuizQuestions
            (if 3 < keywords.length then keywords.getD 3 "" else "subject matter")
            (keywords.take 2) } }

/-- JSON values as produced by `JSON.parse`.  Numbers keep their source
lexeme (no numeric semantics of a number is needed by the pipeline). -/
inductive Json where
  | null
  | bool (b : Bool)
  | num (raw : String)
  | str (s : String)
  | arr (items : List Json)
  | obj (fields : List (String × Json))

/-- JSON insignificant whitespace. -/
def skipWsJ (l : List Char) : List Char :=
  l.dropWhile (fun c => c = ' ' || c = '\t' || c = '\n' || c = '\r')

/-- Hexadecimal digit value. -/
def hexVal (c : Char) : Option Nat :=
  if '0' ≤ c ∧ c ≤ '9' then some (c.toNat - 48)
  else if 'a' ≤ c ∧ c ≤ 'f' then some (c.toNat - 87)
  else if 'A' ≤ c ∧ c ≤ 'F' then some (c.toNat - 55)
  else none

/-- Body of a JSON string after the opening quote: standard escapes are
decoded (`\uXXXX` is decoded through `Char.ofNat`, which maps the
surrogate code points this model cannot represent to the null scalar),
and an unescaped control character is a parse error. -/
def parseStrAux : Nat → List Char → List Char → Option (String × List Char)
  | 0, _, _ => none
  | _ + 1, _, [] => none
  | fuel + 1, acc, c :: cs =>
    if c = '"' then some (String.mk acc.reverse, cs)
    else if c = '\\' then
      match cs with
      | [] => none
      | e :: cs2 =>
        if e = '"' then parseStrAux fuel ('"' :: acc) cs2
        else if e = '\\' then parseStrAux fuel ('\\' :: acc) cs2
        else if e = '/' then parseStrAux fuel ('/' :: acc) cs2
        else if e = 'b' then parseStrAux fuel ('\x08' :: acc) cs2
        else if e = 'f' then parseStrAux fuel ('\x0c' :: acc) cs2
        else if e = 'n' then parseStrAux fuel ('\n' :: acc) cs2
        else if e = 'r' then parseStrAux fuel ('\r' :: acc) cs2
        else if e = 't' then parseStrAux fuel ('\t' :: acc) cs2
        else if e = 'u' then
          match cs2 with
          | h1 :: h2 :: h3 :: h4 :: cs3 =>
            match hexVal h1, hexVal h2, hexVal h3, hexVal h4 with
            | some a, some b, some c2, some d =>
              parseStrAux fuel (Char.ofNat (((a * 16 + b) * 16 + c2) * 16 + d) :: acc) cs3
            | _, _, _, _ => none
          | _ => none
        else none
    else if c.toNat < 0x20 then none
    else parseStrAux fuel (c :: acc) cs

/-- Optional exponent part of a JSON number; `mant` is the already-read
mantissa lexeme. -/
def parseExpPart (mant : List Char) (l : List Char) : Option (String × List Char) :=
  match l with
  | [] => some (String.mk mant, [])
  | e :: r =>
    if e = 'e' ∨ e = 'E' then
      let sgn : List Char × List Char :=
        match r with
        | '+' :: rr => (['+'], rr)
        | '-' :: rr => (['-'], rr)
        | _ => ([], r)
      let ds := sgn.2.takeWhile Char.isDigit
      if ds.isEmpty then none
      else some (String.mk (mant ++ e :: sgn.1 ++ ds), sgn.2.drop ds.length)
    else some (String.mk mant, l)

/-- A JSON number lexeme: optional minus, integer part (a leading zero
stands alone), optional fraction, optional exponent. -/
def parseNum (l : List Char) : Option (String × List Char) :=
  let sgn : List Char × List Char :=
    match l with
    | '-' :: r => (['-'], r)
    | _ => ([], l)
  match sgn.2 with
  | [] => none
  | c :: _ =>
    if c.isDigit then
      let intPart := if c = '0' then ['0'] else sgn.2.takeWhile Char.isDigit
      let l2 := sgn.2.drop intPart.length
      match l2 with
      | '.' :: r2 =>
        let fr := r2.takeWhile Char.isDigit
        if fr.isEmpty then none
        else parseExpPart (sgn.1 ++ intPart ++ '.' :: fr) (r2.drop fr.length)
      | _ => parseExpPart (sgn.1 ++ intPart) l2
    else none

/-- Exact literal match at the head of the input. -/
def matchLit : List Char → List Char → Option (List Char)
  | [], l => some l
  | _ :: _, [] => none
  | p :: ps, c :: cs => if c = p then matchLit ps cs else none

mutual

/-- Recursive-descent JSON value parser with fuel. -/
def parseValue : Nat → List Char → Option (Json × List Char)
  | 0, _ => none
  | fuel + 1, l =>
    match skipWsJ l with
    | [] => none
    | c :: cs =>
      if c = 'n' then (matchLit ['u', 'l', 'l'] cs).map (fun r => (Json.null, r))
      else if c = 't' then (matchLit ['r', 'u', 'e'] cs).map (fun r => (Json.bool true, r))
      else if c = 'f' then (matchLit ['a', 'l', 's', 'e'] cs).map (fun r => (Json.bool false, r))
      else if c = '"' then (parseStrAux (cs.length + 1) [] cs).map (fun p => (Json.str p.1, p.2))
      else if c = '[' then
        match skipWsJ cs with
        | ']' :: r => some (Json.arr [], r)
        | l2 => (parseItems fuel l2).map (fun p => (Json.arr p.1, p.2))
      else if c = '\x7b' then
        match skipWsJ cs with
        | '\x7d' :: r => some (Json.obj [], r)
        | l2 => (parseFields fuel l2).map (fun p => (Json.obj p.1, p.2))
      else if c = '-' ∨ c.isDigit then
        (parseNum (c :: cs)).map (fun p => (Json.num p.1, p.2))
      else none

/-- One-or-more comma-separated array items up to the closing bracket. -/
def parseItems : Nat → List Char → Option (List Json × List Char)
  | 0, _ => none
  | fuel + 1, l =>
    match parseValue fuel l with
    | none => none
    | some (v, r) =>
      match skipWsJ r with
      | ',' :: r2 => (parseItems fuel r2).map (fun p => (v :: p.1, p.2))
      | ']' :: r2 => some ([v], r2)
      | _ => none

/-- One-or-more comma-separated object members up to the closing brace. -/
def parseFields : Nat → List Char → Option (List (String × Json) × List Char)
  | 0, _ => none
  | fuel + 1, l =>
    match skipWsJ l with
    | '"' :: cs =>
      match parseStrAux (cs.length + 1) [] cs with
      | none => none
      | some (k, r) =>
        match skipWsJ r with
        | ':' :: r2 =>
          match parseValue fuel r2 with
          | none => none
          | some (v, r3) =>
            match skipWsJ r3 with
            | ',' :: r4 => (parseFields fuel r4).map (fun p => ((k, v) :: p.1, p.2))
            | '\x7d' :: r4 => some ([(k, v)], r4)
            | _ => none
        | _ => none
    | _ => none

end

/-- Model of `JSON.parse`: parse one value and require only whitespace to
remain.  The fuel bound strictly dominates the number of recursive
descents a string of this length can trigger. -/
def parseJson (s : String) : Option Json :=
  match parseValue (2 * s.data.length + 2) s.data with
  | some (v, rest) => if (skipWsJ rest).isEmpty then some v else none
  | none => none

/-- Property lookup on a parsed JSON value: on an object the last
occurrence of the key wins (as with duplicate keys in `JSON.parse`);
anything else has no properties. -/
def lookupLast (fields : List (String × Json)) (k : String) : Option Json :=
  match fields with
  | [] => none
  | (k2, v) :: fs =>
    match lookupLast fs k with
    | some v2 => some v2
    | none => if k2 = k then some v else none

/-- Model of `parsedPlan.<key>`. -/
def jfield (v : Json) (k : String) : Option Json :=
  match v with
  | Json.obj fields => lookupLast fields k
  | _ => none

/-- Truthiness of a JSON number lexeme: falsy exactly when every mantissa
digit is zero. -/
def numIsTruthy (raw : String) : Bool :=
  (raw.data.takeWhile (fun c => c ≠ 'e' ∧ c ≠ 'E')).any (fun c => c.isDigit && c ≠ '0')

/-- JavaScript truthiness of an optional JSON value (`none` models a
missing property, i.e. `undefined`). -/
def jsTruthy : Option Json → Bool
  | none => false
  | some Json.null => false
  | some (Json.bool b) => b
  | some (Json.num raw) => numIsTruthy raw
  | some (Json.str s) => s != ""
  | some (Json.arr _) => true
  | some (Json.obj _) => true

/-- The normalized plan the remote path returns: the source copies the
parsed fields through `||` defaults (`title`, `description`, `weeks`) and
passes `quiz` through (`undefined`, modelled `none`, when absent). -/
structure RemotePlan where
  title : Json
  description : Json
  weeks : Json
  quiz : Option Json

/-- The normalization of a parsed remote response in `generateStudyPlan`:
`parsedPlan.title || <default title>`, `parsedPlan.description ||
<default description>`, `parsedPlan.weeks || []`, `parsedPlan.quiz ||
undefined`. -/
def normalizePlan (parsedPlan : Json) : RemotePlan :=
  { title := if jsTruthy (jfield parsedPlan "title") then (jfield parsedPlan "title").getD Json.null
      else Json.str "Personalized Chemistry Study Plan",
    description := if jsTruthy (jfield parsedPlan "description") then
        (jfield parsedPlan "description").getD Json.null
      else Json.str "This study plan was generated based on your chemistry materials.",
    weeks := if jsTruthy (jfield parsedPlan "weeks") then (jfield parsedPlan "weeks").getD Json.null
      else Json.arr [],
    quiz := if jsTruthy (jfield parsedPlan "quiz") then jfield parsedPlan "quiz" else none }

/-- Whether `pat` occurs at the head of the input. -/
def leadsWith : List Char → List Char → Bool
  | [], _ => true
  | _ :: _, [] => false
  | p :: ps, c :: cs => c = p && leadsWith ps cs

/-- Model of `String.prototype.includes` for a non-empty pattern. -/
def containsSeq (pat : List Char) : List Char → Bool
  | [] => leadsWith pat []
  | c :: cs => leadsWith pat (c :: cs) || containsSeq pat cs

/-- Worker for `splitOnSeq`: emit the chunk accumulated so far whenever
the separator occurs, scanning left to right without overlap. -/
def splitOnSeqGo (sep : List Char) : Nat → List Char → List Char → List (List Char)
  | 0, acc, _ => [acc.reverse]
  | _ + 1, acc, [] => [acc.reverse]
  | fuel + 1, acc, c :: cs =>
    if leadsWith sep (c :: cs) then
      acc.reverse :: splitOnSeqGo sep fuel [] ((c :: cs).drop sep.length)
    else splitOnSeqGo sep fuel (c :: acc) cs

/-- Model of `String.prototype.split` with a non-empty string separator. -/
def splitOnSeq (sep : List Char) (l : List Char) : List (List Char) :=
  splitOnSeqGo sep (l.length + 1) [] l

/-- Model of `String.prototype.trim` (JavaScript whitespace). -/
def jsTrimL (l : List Char) : List Char :=
  ((l.dropWhile isJsSpace).reverse.dropWhile isJsSpace).reverse

/-- The markdown-fence stripping of the remote path:
`split("```json")[1].split("```")[0].trim()` when a ```` ```json ````
fence is present, `split("```")[1].split("```")[0].trim()` when only a
bare fence is present, the text unchanged otherwise (an out-of-range
`[i]` yields the empty chunk). -/
def stripFences (t : String) : String :=
  let l := t.data
  let fenceJson := "```json".data
  let fence := "```".data
  if containsSeq fenceJson l then
    String.mk (jsTrimL ((splitOnSeq fence ((splitOnSeq fenceJson l).getD 1 [])).getD 0 []))
  else if containsSeq fence l then
    String.mk (jsTrimL ((splitOnSeq fence ((splitOnSeq fence l).getD 1 [])).getD 0 []))
  else t

/-- The remote-response handling of `generateStudyPlan` on a present
`generated_text`: strip fences, `JSON.parse`, and normalize; `none` is
the JSON-parse failure that falls through to the fallback composer. -/
def remoteNormalize (generatedText : String) : Option RemotePlan :=
  (parseJson (stripFences generatedText)).map normalizePlan

/-- Hexadecimal digit character (lowercase). -/
def hexDigitChar (n : Nat) : Char :=
  if n < 10 then Char.ofNat (48 + n) else Char.ofNat (87 + n)

/-- Escaping of one character inside a `JSON.stringify` string. -/
def escChar (c : Char) : String :=
  if c = '"' then "\\\""
  else if c = '\\' then "\\\\"
  else if c = '\x08' then "\\b"
  else if c = '\x0c' then "\\f"
  else if c = '\n' then "\\n"
  else if c = '\r' then "\\r"
  else if c = '\t' then "\\t"
  else if c.toNat < 0x20 then
    "\\u00" ++ String.mk [hexDigitChar (c.toNat / 16), hexDigitChar (c.toNat % 16)]
  else String.mk [c]

/-- A `JSON.stringify` string literal. -/
def jsonStr (s : String) : String :=
  "\"" ++ String.join (s.data.map escChar) ++ "\""

mutual

/-- Rendering of a parsed JSON value, as `JSON.stringify` does on the
normalized remote plan.  A number is re-emitted as its source lexeme
(this model does not re-canonicalize numeric lexemes; no claim depends on
the rendering of a remote success). -/
def renderJson : Json → String
  | Json.null => "null"
  | Json.bool true => "true"
  | Json.bool false => "false"
  | Json.num raw => raw
  | Json.str s => jsonStr s
  | Json.arr items => "[" ++ String.intercalate "," (renderJsonList items) ++ "]"
  | Json.obj fields => "\x7b" ++ String.intercalate "," (renderJsonFields fields) ++ "\x7d"

/-- Rendered items of a JSON array. -/
def renderJsonList : List Json → List String
  | [] => []
  | v :: vs => renderJson v :: renderJsonList vs

/-- Rendered members of a JSON object. -/
def renderJsonFields : List (String × Json) → List String
  | [] => []
  | (k, v) :: fs => (jsonStr k ++ ":" ++ renderJson v) :: renderJsonFields fs

end

/-- `JSON.stringify` of the normalized remote plan object; an absent
`quiz` (JavaScript `undefined`) is omitted. -/
def renderRemotePlan (p : RemotePlan) : String :=
  "\x7b\"title\":" ++ renderJson p.title ++
  ",\"description\":" ++ renderJson p.description ++
  ",\"weeks\":" ++ renderJson p.weeks ++
  (match p.quiz with
   | some q => ",\"quiz\":" ++ renderJson q
   | none => "") ++ "\x7d"

/-- `JSON.stringify` of a video recommendation. -/
def renderVideoRef (v : VideoRef) : String :=
  "\x7b\"title\":" ++ jsonStr v.title ++
  ",\"url\":" ++ jsonStr v.url ++
  ",\"description\":" ++ jsonStr v.description ++ "\x7d"

/-- `JSON.stringify` of a topic entry. -/
def renderTopicPlan (t : TopicPlan) : String :=
  "\x7b\"name\":" ++ jsonStr t.name ++
  ",\"description\":" ++ jsonStr t.description ++
  ",\"estimatedHours\":" ++ toString t.estimatedHours ++
  ",\"resources\":[" ++ String.intercalate "," (t.resources.map jsonStr) ++ "]" ++
  ",\"videoRecommendations\":[" ++
    String.intercalate "," (t.videoRecommendations.map renderVideoRef) ++ "]\x7d"

/-- `JSON.stringify` of a week. -/
def renderWeekPlan (w : WeekPlan) : String :=
  "\x7b\"weekNumber\":" ++ toString w.weekNumber ++
  ",\"topics\":[" ++ String.intercalate "," (w.topics.map renderTopicPlan) ++ "]\x7d"

/-- `JSON.stringify` of a quiz question. -/
def renderQuizQuestion (q : QuizQuestion) : String :=
  "\x7b\"question\":" ++ jsonStr q.question ++
  ",\"options\":[" ++ String.intercalate "," (q.options.map jsonStr) ++ "]" ++
  ",\"correctAnswer\":" ++ toString q.correctAnswer ++ "\x7d"

/-- `JSON.stringify` of the quiz block. -/
def renderQuizBlock (qb : QuizBlock) : String :=
  "\x7b\"title\":" ++ jsonStr qb.title ++
  ",\"description\":" ++ jsonStr qb.description ++
  ",\"questions\":[" ++ String.intercalate "," (qb.questions.map renderQuizQuestion) ++ "]\x7d"

/-- `JSON.stringify` of a study-plan document, with the field order of
the object literal in the source; an absent quiz is omitted. -/
def serializeDoc (d : StudyPlanDocument) : String :=
  "\x7b\"title\":" ++ jsonStr d.title ++
  ",\"description\":" ++ jsonStr d.description ++
  ",\"weeks\":[" ++ String.intercalate "," (d.weeks.map renderWeekPlan) ++ "]" ++
  (match d.quiz with
   | some qb => ",\"quiz\":" ++ renderQuizBlock qb
   | none => "") ++ "\x7d"

/-- Outcome of the remote call in `generateStudyPlan`: the request threw
(network or HTTP error), the response carried no usable
`data.generated_text`, or it produced a generated text. -/
inductive RemoteOutcome where
  | apiError
  | noData
  | generated (generatedText : String)

/-- The study-plan pipeline over an already-read file content, with the
remote call abstracted by its outcome: a parsable remote response is
normalized and serialized; every failure (thrown call, missing response
field, unparsable text) falls through to the fallback composer, whose
document is serialized. -/
def generateStudyPlanModel (remote : RemoteOutcome) (fileContent : String) : String :=
  match remote with
  | RemoteOutcome.generated s =>
    match remoteNormalize s with
    | some plan => renderRemotePlan plan
    | none => serializeDoc (composeFallbackPlan fileContent)
  | _ => serializeDoc (composeFallbackPlan fileContent)

theorem generateTopics_length (keywords : List String) :
    (generateTopicsFromKeywords keywords).length = 4 := by
  unfold generateTopicsFromKeywords
  split <;> rfl

theorem generateTopics_resources_length (keywords : List String) :
    ∀ t ∈ generateTopicsFromKeywords keywords, t.resources.length = 2 := by
  intro t ht
  unfold generateTopicsFromKeywords at ht
  split at ht <;>
    simp only [List.mem_cons, List.not_mem_nil, or_false] at ht <;>
    rcases ht with rfl | rfl | rfl | rfl <;>
    dsimp only <;>
    first
    | rfl
    | (split <;> rfl)

/-- Claim C4: `generateTopicsFromKeywords` returns exactly 4 topics for
every keyword list (length 0, 1, 2, 3, or more). -/
theorem claim4_topics_count (keywords : List String) :
    (generateTopicsFromKeywords keywords).length = 4 :=
  generateTopics_length keywords

/-- Claim C2 (counterexample): on the text
`chapter 3 organic chemistry reactions page 45 mechanisms` the keyword
extractor does not return `[organic, chemistry, reactions, mechanisms]`;
the token `chapter` has 7 characters and survives the length filter. -/
theorem claim2_counterexample :
    extractKeywords "chapter 3 organic chemistry reactions page 45 mechanisms" ≠
      ["organic", "chemistry", "reactions", "mechanisms"] := by decide

/-- Claim C2 (amended): on the text
`chapter 3 organic chemistry reactions page 45 mechanisms` the keyword
extractor returns exactly
`[chapter, organic, chemistry, reactions, mechanisms]`. -/
theorem claim2_extract_keywords_example :
    extractKeywords "chapter 3 organic chemistry reactions page 45 mechanisms" =
      ["chapter", "organic", "chemistry", "reactions", "mechanisms"] := by decide

/-- Claim C5 (counterexample): on the empty keyword list the fourth topic
is the generic `Review and Self-Assessment`, not `Review and
Assessment`. -/
theorem claim5_counterexample :
    ((generateTopicsFromKeywords []).getD 3 { name := "", description := "", resources := [] }).name ≠
      "Review and Assessment" := by decide

/-- Claim C5 (amended): for every non-empty keyword list the fourth topic
of `generateTopicsFromKeywords` is named `Review and Assessment` and its
description summarizes the capitalized first (up to) 3 keywords; for the
empty keyword list the fourth topic is the fixed generic `Review and
Self-Assessment` topic. -/
theorem claim5_fourth_topic (keywords : List String) :
    (keywords ≠ [] →
      (generateTopicsFromKeywords keywords).getD 3 { name := "", description := "", resources := [] } =
        { name := "Review and Assessment",
          description := "Test your understanding of " ++
            String.intercalate ", " ((keywords.take 3).map capitalize) ++ " and other key topics",
          resources := ["Create practice quizzes", "Summarize key points from your materials"] }) ∧
    (keywords = [] →
      (generateTopicsFromKeywords keywords).getD 3 { name := "", description := "", resources := [] } =
        { name := "Review and Self-Assessment",
          description := "Test your understanding and identify areas for improvement",
          resources := ["Create practice tests", "Review difficult concepts"] }) := by
  constructor
  · intro h
    have hlen : ¬ keywords.length = 0 := by
      simpa [List.length_eq_zero] using h
    unfold generateTopicsFromKeywords
    simp [hlen, List.getD]
  · intro h
    subst h
    decide

/-- Witness for claim C5: the amended claim applied to the concrete
keyword list `[alpha, bravo]`. -/
theorem claim5_witness :
    (["alpha", "bravo"] : List String) ≠ [] ∧
    (generateTopicsFromKeywords ["alpha", "bravo"]).getD 3 { name := "", description := "", resources := [] } =
      { name := "Review and Assessment",
        description := "Test your understanding of " ++
          String.intercalate ", " (((["alpha", "bravo"] : List String).take 3).map capitalize) ++
          " and other key topics",
        resources := ["Create practice quizzes", "Summarize key points from your materials"] } :=
  ⟨by decide, (claim5_fourth_topic ["alpha", "bravo"]).1 (by decide)⟩

/-- Claim C8: the markdown-fenced remote response carrying the JSON
object with title `X` and empty weeks normalizes to title `X`, the fixed
default description, empty weeks, and an absent quiz. -/
theorem claim8_fenced_remote_parse :
    remoteNormalize "```json\n\x7b\"title\":\"X\",\"weeks\":[]\x7d\n```" =
      some { title := Json.str "X",
             description := Json.str "This study plan was generated based on your chemistry materials.",
             weeks := Json.arr [],
             quiz := none } := by rfl

theorem dedupFirstAux_sublist (seen l : List String) :
    List.Sublist (dedupFirstAux seen l) l := by
  induction l generalizing seen with
  | nil => simp [dedupFirstAux]
  | cons w ws ih =>
    unfold dedupFirstAux
    split
    · exact List.sublist_cons_of_sublist w (ih seen)
    · exact List.Sublist.cons₂ w (ih (w :: seen))

theorem dedupFirstAux_not_mem_seen (seen l : List String) :
    ∀ a ∈ dedupFirstAux seen l, a ∉ seen := by
  induction l generalizing seen with
  | nil => simp [dedupFirstAux]
  | cons w ws ih =>
    unfold dedupFirstAux
    split
    · exact ih seen
    · intro a ha
      rcases List.mem_cons.mp ha with rfl | ha2
      · assumption
      · intro hseen
        exact ih (w :: seen) a ha2 (List.mem_cons_of_mem w hseen)

theorem dedupFirstAux_nodup (seen l : List String) :
    (dedupFirstAux seen l).Nodup := by
  induction l generalizing seen with
  | nil => simp [dedupFirstAux]
  | cons w ws ih =>
    unfold dedupFirstAux
    split
    · exact ih seen
    · refine List.nodup_cons.mpr ⟨?_, ih (w :: seen)⟩
      intro hmem
      exact dedupFirstAux_not_mem_seen (w :: seen) ws w hmem (List.mem_cons_self w seen)

theorem dedupFirstAux_pairwise (seen l : List String) :
    (dedupFirstAux seen l).Pairwise (fun a b => l.indexOf a < l.indexOf b) := by
  induction l generalizing seen with
  | nil => simp [dedupFirstAux]
  | cons w ws ih =>
    unfold dedupFirstAux
    split
    · rename_i hseen
      refine (ih seen).imp_of_mem ?_
      intro a b ha hb hlt
      have hane : w ≠ a := fun h =>
        dedupFirstAux_not_mem_seen seen ws a ha (h ▸ hseen)
      have hbne : w ≠ b := fun h =>
        dedupFirstAux_not_mem_seen seen ws b hb (h ▸ hseen)
      rw [List.indexOf_cons_ne ws hane, List.indexOf_cons_ne ws hbne]
      exact Nat.succ_lt_succ hlt
    · refine List.pairwise_cons.mpr ⟨?_, ?_⟩
      · intro b hb
        have hbne : w ≠ b := fun h =>
          dedupFirstAux_not_mem_seen (w :: seen) ws b hb
            (List.mem_cons.mpr (Or.inl h.symm))
        rw [List.indexOf_cons_self, List.indexOf_cons_ne ws hbne]
        exact Nat.succ_pos _
      · refine (ih (w :: seen)).imp_of_mem ?_
        intro a b ha hb hlt
        have hane : w ≠ a := fun h =>
          dedupFirstAux_not_mem_seen (w :: seen) ws a ha
            (List.mem_cons.mpr (Or.inl h.symm))
        have hbne : w ≠ b := fun h =>
          dedupFirstAux_not_mem_seen (w :: seen) ws b hb
            (List.mem_cons.mpr (Or.inl h.symm))
        rw [List.indexOf_cons_ne ws hane, List.indexOf_cons_ne ws hbne]
        exact Nat.succ_lt_succ hlt

theorem dedupFirst_sublist (l : List String) : List.Sublist (dedupFirst l) l :=
  dedupFirstAux_sublist [] l

theorem dedupFirst_nodup (l : List String) : (dedupFirst l).Nodup :=
  dedupFirstAux_nodup [] l

theorem dedupFirst_pairwise (l : List String) :
    (dedupFirst l).Pairwise (fun a b => l.indexOf a < l.indexOf b) :=
  dedupFirstAux_pairwise [] l

/-- Claim C3: for every input text the keyword extractor returns at most
10 tokens, with no duplicates, each of length strictly greater than 4,
and the tokens form a subsequence of the lowercased, stripped,
whitespace-split, length-filtered token list, ordered by first
occurrence in it. -/
theorem claim3_extract_keywords_bounds (text : String) :
    ((extractKeywords text).length ≤ 10 ∧
     (extractKeywords text).Nodup ∧
     List.Sublist (extractKeywords text) (keywordTokens text) ∧
     (extractKeywords text).Pairwise (fun a b =>
        (keywordTokens text).indexOf a < (keywordTokens text).indexOf b)) ∧
    ∀ w, w ∈ extractKeywords text → 4 < w.length := by
  have hsub : List.Sublist (extractKeywords text) (keywordTokens text) :=
    (List.take_sublist 10 (dedupFirst (keywordTokens text))).trans
      (dedupFirst_sublist (keywordTokens text))
  refine ⟨⟨?_, ?_, hsub, ?_⟩, ?_⟩
  · exact List.length_take_le 10 (dedupFirst (keywordTokens text))
  · exact (dedupFirst_nodup (keywordTokens text)).sublist
      (List.take_sublist 10 (dedupFirst (keywordTokens text)))
  · exact (dedupFirst_pairwise (keywordTokens text)).sublist
      (List.take_sublist 10 (dedupFirst (keywordTokens text)))
  · intro w hw
    have hmem : w ∈ keywordTokens text := hsub.subset hw
    unfold keywordTokens at hmem
    have := List.of_mem_filter hmem
    simpa using this

/-- Witness for claim C3: `chapter` is one of the returned keywords of a
concrete text and its length is greater than 4. -/
theorem claim3_witness :
    "chapter" ∈ extractKeywords "chapter 3 organic chemistry reactions page 45 mechanisms" ∧
    4 < ("chapter" : String).length :=
  ⟨by decide,
   (claim3_extract_keywords_bounds "chapter 3 organic chemistry reactions page 45 mechanisms").2
     "chapter" (by decide)⟩

theorem ne_empty_of_head (a b : String) (ha : 0 < a.length) : a ++ b ≠ "" := by
  intro h
  have hlen := congrArg String.length h
  rw [String.length_append] at hlen
  rw [show String.length "" = 0 from rfl] at hlen
  omega

theorem studyReferences_mem_ne (text : String) :
    ∀ w ∈ studyReferences text, w ≠ "" := by
  intro w hw
  have hmem := (dedupFirst_sublist _).subset hw
  rcases List.mem_append.mp hmem with h12 | h3
  · rcases List.mem_append.mp h12 with h1 | h2
    · obtain ⟨m, _, rfl⟩ := List.mem_map.mp h1
      exact ne_empty_of_head "Chapter " _ (by decide)
    · obtain ⟨m, _, rfl⟩ := List.mem_map.mp h2
      exact ne_empty_of_head "Page " _ (by decide)
  · obtain ⟨k, _, rfl⟩ := List.mem_map.mp h3
    exact ne_empty_of_head "Study " _ (by decide)

theorem assignResources_resources (pool : List String) (t : Topic)
    (hne : ∀ w ∈ pool, w ≠ "") :
    (assignResources pool t).resources =
      if pool.length = 0 then defaultReferences
      else (List.range t.resources.length).map
        (fun i => pool.getD (i % pool.length) "") := by
  unfold assignResources
  rcases Nat.eq_zero_or_pos pool.length with h0 | hpos
  · rw [if_neg (by omega), if_pos h0]
  · rw [if_pos hpos, if_neg (by omega)]
    dsimp only
    apply List.map_congr_left
    intro i _
    have hlt : i % pool.length < pool.length := Nat.mod_lt i hpos
    have hmem : pool.getD (i % pool.length) "" ∈ pool := by
      rw [List.getD_eq_getElem _ _ hlt]
      exact List.getElem_mem hlt
    show (if pool.getD (i % pool.length) "" = "" then _ else pool.getD (i % pool.length) "") = _
    rw [if_neg (hne _ hmem)]

theorem topicsAssigned_resources (text : String) :
    ∀ t ∈ topicsAssigned text, t.resources =
      (if (studyReferences text).length = 0 then defaultReferences
       else [(studyReferences text).getD (0 % (studyReferences text).length) "",
             (studyReferences text).getD (1 % (studyReferences text).length) ""]) := by
  intro t ht
  unfold topicsAssigned at ht
  obtain ⟨t0, ht0, rfl⟩ := List.mem_map.mp ht
  rw [assignResources_resources _ _ (studyReferences_mem_ne text)]
  rw [generateTopics_resources_length _ t0 ht0]
  split
  · rfl
  · rfl

theorem topicsAssigned_resources_ne (text : String) :
    ∀ t ∈ topicsAssigned text, t.resources ≠ [] := by
  intro t ht
  rw [topicsAssigned_resources text t ht]
  split <;> simp [defaultReferences]

/-- Claim C6: in the fallback composer, with a non-empty reference pool
the personalized resource at index `i` of every topic is exactly
`pool[i % pool.length]` (the default-list fallback of the `||` is never
taken because pool entries are non-empty strings), and with an empty pool
every topic receives the fixed 3-item default reference list. -/
theorem claim6_resource_assignment (text : String) :
    (studyReferences text ≠ [] →
      ∀ t ∈ generateTopicsFromKeywords (extractKeywords text),
        (assignResources (studyReferences text) t).resources =
          (List.range t.resources.length).map
            (fun i => (studyReferences text).getD (i % (studyReferences text).length) "")) ∧
    (studyReferences text = [] →
      ∀ t ∈ generateTopicsFromKeywords (extractKeywords text),
        (assignResources (studyReferences text) t).resources = defaultReferences) := by
  constructor
  · intro hne t _
    rw [assignResources_resources _ _ (studyReferences_mem_ne text)]
    rw [if_neg (by simpa [List.length_eq_zero] using hne)]
  · intro hemp t _
    rw [assignResources_resources _ _ (studyReferences_mem_ne text)]
    rw [if_pos (by simp [hemp])]

/-- Witness for claim C6: the non-empty-pool branch applied to the first
topic generated for a concrete text with chapter, page and keyword
references. -/
theorem claim6_witness :
    studyReferences "chapter 3 organic chemistry reactions page 45 mechanisms" ≠ [] ∧
    (assignResources (studyReferences "chapter 3 organic chemistry reactions page 45 mechanisms")
      ((generateTopicsFromKeywords (extractKeywords "chapter 3 organic chemistry reactions page 45 mechanisms")).getD 0
        { name := "", description := "", resources := [] })).resources =
      (List.range ((generateTopicsFromKeywords (extractKeywords "chapter 3 organic chemistry reactions page 45 mechanisms")).getD 0
        { name := "", description := "", resources := [] }).resources.length).map
        (fun i => (studyReferences "chapter 3 organic chemistry reactions page 45 mechanisms").getD
          (i % (studyReferences "chapter 3 organic chemistry reactions page 45 mechanisms").length) "") :=
  ⟨by decide,
   (claim6_resource_assignment "chapter 3 organic chemistry reactions page 45 mechanisms").1
     (by decide) _ (by decide)⟩

/-- Claim C10: in the fallback composer every one of the four topics ends
with the identical resources list — the two-element round-robin
`[pool[0 % n], pool[1 % n]]` when the pool is non-empty, the 3-item
default list when it is empty — and that list is never empty. -/
theorem claim10_identical_resources (text : String) :
    ∀ t ∈ topicsAssigned text,
      t.resources =
        (if (studyReferences text).length = 0 then defaultReferences
         else [(studyReferences text).getD (0 % (studyReferences text).length) "",
               (studyReferences text).getD (1 % (studyReferences text).length) ""]) ∧
      t.resources ≠ [] := by
  intro t ht
  refine ⟨topicsAssigned_resources text t ht, topicsAssigned_resources_ne text t ht⟩

/-- Witness for claim C10: the first assigned topic on the empty input
text carries the default reference list, which is non-empty. -/
theorem claim10_witness :
    ((topicsAssigned "").getD 0 { name := "", description := "", resources := [] }).resources =
      (if (studyReferences "").length = 0 then defaultReferences
       else [(studyReferences "").getD (0 % (studyReferences "").length) "",
             (studyReferences "").getD (1 % (studyReferences "").length) ""]) ∧
    ((topicsAssigned "").getD 0 { name := "", description := "", resources := [] }).resources ≠ [] :=
  claim10_identical_resources "" _ (by decide)

theorem generateQuiz_length (topic : String) (relatedTerms : List String) :
    (generateQuizQuestions topic relatedTerms).length = 3 := by
  unfold generateQuizQuestions
  by_cases h : 1 < relatedTerms.length <;> simp [h]

theorem generateQuiz_shape (topic : String) (relatedTerms : List String) :
    ∀ q ∈ generateQuizQuestions topic relatedTerms,
      q.options.length = 4 ∧ q.correctAnswer ≤ 3 := by
  intro q hq
  unfold generateQuizQuestions at hq
  by_cases h : 1 < relatedTerms.length <;>
    simp only [h, if_true, if_false, List.mem_append, List.mem_cons,
      List.not_mem_nil, or_false] at hq <;>
    rcases hq with (rfl | rfl) | rfl <;>
    exact ⟨rfl, by dsimp only; omega⟩

/-- Claim C7: the fallback quiz consists of exactly 6 questions (two runs
of the 3-question generator), and every question has exactly 4 options
with a correct-answer index between 0 and 3. -/
theorem claim7_quiz_shape (text : String) :
    ∃ qb, (composeFallbackPlan text).quiz = some qb ∧
      qb.questions.length = 6 ∧
      qb.questions.all
        (fun q => q.options.length == 4 && decide (q.correctAnswer ≤ 3)) = true := by
  refine ⟨_, rfl, ?_, ?_⟩
  · rw [List.length_append, generateQuiz_length, generateQuiz_length]
  · rw [List.all_eq_true]
    intro q hq
    rcases List.mem_append.mp hq with h | h <;>
    · have hs := generateQuiz_shape _ _ q h
      simp [hs.1, hs.2]

theorem mapWithIndexFrom_length (f : Nat → α → β) (i : Nat) (l : List α) :
    (mapWithIndexFrom f i l).length = l.length := by
  induction l generalizing i with
  | nil => rfl
  | cons a as ih => simp [mapWithIndexFrom, ih]

theorem mapWithIndexFrom_mem (f : Nat → α → β) (i : Nat) (l : List α) :
    ∀ b ∈ mapWithIndexFrom f i l, ∃ j a, a ∈ l ∧ b = f j a := by
  induction l generalizing i with
  | nil => simp [mapWithIndexFrom]
  | cons a as ih =>
    intro b hb
    rcases List.mem_cons.mp hb with rfl | hb2
    · exact ⟨i, a, List.mem_cons_self a as, rfl⟩
    · obtain ⟨j, a2, ha2, rfl⟩ := ih (i + 1) b hb2
      exact ⟨j, a2, List.mem_cons_of_mem a ha2, rfl⟩

theorem mapWithIndex_length (f : Nat → α → β) (l : List α) :
    (mapWithIndex f l).length = l.length :=
  mapWithIndexFrom_length f 0 l

theorem mapWithIndex_mem (f : Nat → α → β) (l : List α) :
    ∀ b ∈ mapWithIndex f l, ∃ j a, a ∈ l ∧ b = f j a :=
  mapWithIndexFrom_mem f 0 l

theorem generateYT_length (topic : String) (subtopics : List String) :
    (generateYouTubeRecommendations topic subtopics).length = 2 := rfl

theorem topicsAssigned_length (text : String) :
    (topicsAssigned text).length = 4 := by
  unfold topicsAssigned
  rw [List.length_map]
  exact generateTopics_length _

/-- Claim C9: the fallback composer is a total function whose output is
structurally well-formed for every input text — week numbers `[1, 2]`,
two topics per week, non-empty resources and two video recommendations
per topic, and a 6-question quiz — and on the empty input text it
degrades to the four fixed generic topics. -/
theorem claim9_fallback_total :
    (∀ text : String,
      ((composeFallbackPlan text).weeks.map WeekPlan.weekNumber = [1, 2]) ∧
      ((composeFallbackPlan text).weeks.all (fun w =>
          w.topics.length == 2 &&
          w.topics.all (fun t =>
            !t.resources.isEmpty && t.videoRecommendations.length == 2)) = true) ∧
      (∃ qb, (composeFallbackPlan text).quiz = some qb ∧ qb.questions.length = 6)) ∧
    ((composeFallbackPlan "").weeks.map (fun w => w.topics.map TopicPlan.name) =
      [["Understanding Core Concepts", "Applying Theory to Practice"],
       ["Advanced Topic Exploration", "Review and Self-Assessment"]]) := by
  constructor
  · intro text
    refine ⟨rfl, ?_, ⟨_, rfl, ?_⟩⟩
    · rw [List.all_eq_true]
      intro w hw
      have hlen4 := topicsAssigned_length text
      have hwk : w.topics = mapWithIndex (fun index topic =>
            ({ name := topic.name,
               description := topic.description,
               estimatedHours := 3 + index,
               resources := topic.resources,
               videoRecommendations := generateYouTubeRecommendations
                 (kwOr (extractKeywords text) index (headTokLower topic.name))
                 (((extractKeywords text).drop 2).take 2) } : TopicPlan))
            ((topicsAssigned text).take 2) ∨
          w.topics = mapWithIndex (fun index topic =>
            ({ name := topic.name,
               description := topic.description,
               estimatedHours := 4 + index,
               resources := topic.resources,
               videoRecommendations := generateYouTubeRecommendations
                 (kwOr (extractKeywords text) (index + 2) (headTokLower topic.name))
                 ((extractKeywords text).take 2) } : TopicPlan))
            (((topicsAssigned text).drop 2).take 2) := by
        rcases List.mem_cons.mp hw with rfl | hw2
        · exact Or.inl rfl
        rcases List.mem_cons.mp hw2 with rfl | hw3
        · exact Or.inr rfl
        · exact absurd hw3 (List.not_mem_nil w)
      have hto : ∀ tp ∈ w.topics, tp.resources ≠ [] ∧ tp.videoRecommendations.length = 2 := by
        rcases hwk with hwk | hwk <;> rw [hwk] <;> intro tp htp <;>
          obtain ⟨j, t0, ht0, rfl⟩ := mapWithIndex_mem _ _ tp htp
        · have ht0m : t0 ∈ topicsAssigned text := List.mem_of_mem_take ht0
          exact ⟨topicsAssigned_resources_ne text t0 ht0m, generateYT_length _ _⟩
        · have ht0m : t0 ∈ topicsAssigned text :=
            List.mem_of_mem_drop (List.mem_of_mem_take ht0)
          exact ⟨topicsAssigned_resources_ne text t0 ht0m, generateYT_length _ _⟩
      have hlen2 : w.topics.length = 2 := by
        rcases hwk with hwk | hwk <;> rw [hwk, mapWithIndex_length]
        · rw [List.length_take, hlen4]
          omega
        · rw [List.length_take, List.length_drop, hlen4]
          omega
      rw [Bool.and_eq_true, List.all_eq_true]
      refine ⟨by simp [hlen2], ?_⟩
      intro tp htp
      have := hto tp htp
      simp [this.1, this.2]
    · rw [List.length_append, generateQuiz_length, generateQuiz_length]
  · decide

/-- Claim C1: whenever the remote plan request fails — the call threw,
the response lacked `generated_text`, or the generated text does not
parse as JSON after fence-stripping — the pipeline's serialized output
equals exactly the serialization of the document the fallback composer
produces for the same input text. -/
theorem claim1_remote_failure_falls_back (fileContent : String) (remote : RemoteOutcome)
    (h : remote = RemoteOutcome.apiError ∨ remote = RemoteOutcome.noData ∨
         ∃ s, remote = RemoteOutcome.generated s ∧ remoteNormalize s = none) :
    generateStudyPlanModel remote fileContent =
      serializeDoc (composeFallbackPlan fileContent) := by
  rcases h with rfl | rfl | ⟨s, rfl, hs⟩
  · rfl
  · rfl
  · show (match remoteNormalize s with
      | some plan => renderRemotePlan plan
      | none => serializeDoc (composeFallbackPlan fileContent)) =
      serializeDoc (composeFallbackPlan fileContent)
    rw [hs]

/-- Witness for claim C1: a generated text that is not JSON falls through
to the fallback document on a concrete input text. -/
theorem claim1_witness :
    remoteNormalize "oops" = none ∧
    generateStudyPlanModel (RemoteOutcome.generated "oops") "chapter 1 notes" =
      serializeDoc (composeFallbackPlan "chapter 1 notes") :=
  ⟨by rfl,
   claim1_remote_failure_falls_back "chapter 1 notes" (RemoteOutcome.generated "oops")
     (Or.inr (Or.inr ⟨"oops", rfl, by rfl⟩))⟩
